import Mathlib

/-!
Shallow embedding of the sanshu popup frontend (Vue/TypeScript) for
verification of its specification claims.

Sources embedded:
* the popup input component (clipboard ingestion, custom prompts, conditional
  prompt toggling, drag-order saving),
* the reply/popup response component (submit / continue / enhance builders),
* the history tab (search filter, delete-by-range, export),
* the prompt-template configuration module (legacy and new prompt generators).

Modeling conventions:
* JavaScript strings are Lean `String`s; the handful of string primitives the
  code uses (`trim`, `startsWith`, `includes`, `toLowerCase`, `split`,
  `replaceAll` on single characters) are re-implemented structurally on
  `List Char` so that every definition evaluates inside the kernel.
  JS `trim` strips Unicode whitespace; we model it with Lean's ASCII
  whitespace predicate, which is faithful on all inputs the claims touch.
* JS `x.length > 0` tests on arrays/strings are modeled with `isEmpty`/`== ""`.
* Backend (Tauri `invoke`) calls are modeled by explicit result values passed
  in: a call that can throw is an `Option`/`Except` value supplied by the
  environment, and `catch` blocks become `match` arms.  The content-addressed
  `stash_ingredient_bytes_cmd` is a function from (content, mime) to the
  returned spice id.
* The `<img src=...>` regex scan of pasted HTML is abstracted: the environment
  carries the list of extracted `src` attributes, and the code's
  `data:image/` filter is kept.
* `Date`-dependent formatting (`formatTimeForSearch`, `toISOString`) is
  host/timezone dependent and is passed in as an explicit function.
-/

namespace Sanshu

/-- Whitespace predicate used by the modeled JS `trim`. -/
def isWS (c : Char) : Bool := c.isWhitespace

/-- Trim leading and trailing whitespace from a character list. -/
def trimChars (cs : List Char) : List Char :=
  ((cs.dropWhile isWS).reverse.dropWhile isWS).reverse

/-- JS `String.prototype.trim`. -/
def jsTrim (s : String) : String := ⟨trimChars s.data⟩

/-- Does the second list start with the first one? -/
def leadsWith : List Char → List Char → Bool
  | [], _ => true
  | _ :: _, [] => false
  | a :: as, b :: bs => a == b && leadsWith as bs

/-- JS `String.prototype.startsWith`. -/
def jsStartsWith (s pre : String) : Bool := leadsWith pre.data s.data

/-- Does the second list contain the first as a contiguous run? -/
def containsChars : List Char → List Char → Bool
  | needle, [] => leadsWith needle []
  | needle, c :: rest => leadsWith needle (c :: rest) || containsChars needle rest

/-- JS `String.prototype.includes`. -/
def jsIncludes (s sub : String) : Bool := containsChars sub.data s.data

/-- JS `String.prototype.toLowerCase` (ASCII case folding). -/
def jsToLower (s : String) : String := ⟨s.data.map Char.toLower⟩

/-- JS `text.split(/\r?\n/)`: split at `\n`, consuming one `\r` right before it. -/
def splitLinesAux : List Char → List (List Char)
  | [] => [[]]
  | '\r' :: '\n' :: rest => [] :: splitLinesAux rest
  | '\n' :: rest => [] :: splitLinesAux rest
  | c :: rest =>
    match splitLinesAux rest with
    | [] => [[c]]
    | l :: ls => (c :: l) :: ls

/-- `guessFileExtensionFromMime` from the popup input component. -/
def guessFileExtensionFromMime (mime : String) : String :=
  let normalized := jsToLower mime
  if normalized = "image/png" then "png"
  else if normalized = "image/jpeg" then "jpg"
  else if normalized = "image/webp" then "webp"
  else if normalized = "image/gif" then "gif"
  else if normalized = "image/bmp" then "bmp"
  else "png"

/-- The alternatives of the image-extension regex
`(\.png|\.jpe?g|\.webp|\.gif|\.bmp|\.tiff?)`. -/
def imageExts : List (List Char) :=
  [".png", ".jpg", ".jpeg", ".webp", ".gif", ".bmp", ".tif", ".tiff"].map String.data

/-- All cuts of the line just before a `'?'`, modeling the optional
`(\?.*)?` query-string tail of the image-extension regex. -/
def cutsBeforeQuery : List Char → List (List Char)
  | [] => []
  | c :: rest =>
    (if c = '?' then [([] : List Char)] else []) ++ (cutsBeforeQuery rest).map (c :: ·)

/-- Case-insensitive test of the image-extension regex
`(\.png|\.jpe?g|\.webp|\.gif|\.bmp|\.tiff?)(\?.*)?$` against a line. -/
def matchesImageExt (line : List Char) : Bool :=
  let l := line.map Char.toLower
  (l :: cutsBeforeQuery l).any fun cand => imageExts.any fun e => List.isSuffixOf e cand

/-- The `/^[a-zA-Z]:[\\/]/` Windows drive-path test. -/
def isDrivePath : List Char → Bool
  | a :: ':' :: c :: _ => a.isAlpha && (c == '\\' || c == '/')
  | _ => false

/-- The per-line classification inside `looksLikeImageFilePathList`. -/
def lineIsImagePath (line : List Char) : Bool :=
  if leadsWith ['#'] line then false
  else if leadsWith ("file://".data) line then matchesImageExt line
  else if leadsWith ['/'] line || isDrivePath line then matchesImageExt line
  else false

/-- `looksLikeImageFilePathList` from the popup input component: the plain-text
heuristic detecting lists of image file paths. -/
def looksLikeImageFilePathList (text : String) : Bool :=
  let rawLines := ((splitLinesAux text.data).map trimChars).filter fun l => !l.isEmpty
  if rawLines.isEmpty then false
  else
    let lines :=
      match rawLines with
      | [] => []
      | l :: rest => if l == "copy".data || l == "cut".data then rest else l :: rest
    if lines.isEmpty then false
    else lines.any lineIsImagePath

/-- A pasted file: name, MIME type and (abstract) byte content. -/
structure IngredientFile where
  name : String
  mime : String
  content : String
deriving DecidableEq

/-- A `DataTransferItem` of the clipboard event. -/
structure ClipItem where
  kind : String
  mime : String
  asFile : Option IngredientFile
deriving DecidableEq

/-- A block returned by the `read_clipboard_ingredients_cached` backend command. -/
structure RustBlock where
  spice_id : Option String
  hasBytes : Bool
  dish_type : Option String
deriving DecidableEq

/-- The backend (Tauri `invoke`) environment of one clipboard interaction:
`stash` is the content-addressed `stash_ingredient_bytes_cmd` (`none` = the
command throws), `decodeDataUrl` is `fetch(dataUrl)`/`blob()` returning the
blob's content and MIME type (`none` = it throws), and `rustBlocks` is the
result of `read_clipboard_ingredients_cached` (`none` = it throws). -/
structure Backend where
  stash : String → String → Option String
  decodeDataUrl : String → Option (String × String)
  rustBlocks : Option (List RustBlock)

/-- State change and count produced by one ingestion loop. -/
structure RustAddResult where
  state : List String
  added : Nat
deriving DecidableEq

/-- The block loop of `addIngredientsFromRustClipboard`: skip blocks with a
falsy spice id, missing bytes or falsy dish type, skip spice ids already in
the ingredient list, append the rest. -/
def addRustBlocks (st : List String) (added : Nat) : List RustBlock → RustAddResult
  | [] => ⟨st, added⟩
  | b :: rest =>
    match b.spice_id, b.dish_type with
    | some sid, some dt =>
      if sid == "" || !b.hasBytes || dt == "" then addRustBlocks st added rest
      else if sid ∈ st then addRustBlocks st added rest
      else addRustBlocks (st ++ [sid]) (added + 1) rest
    | _, _ => addRustBlocks st added rest

/-- `addIngredientsFromRustClipboard`: read blocks from the OS clipboard via
the backend; a throwing backend call is caught and reported, returning 0. -/
def addIngredientsFromRustClipboard (bk : Backend) (st : List String) : RustAddResult :=
  match bk.rustBlocks with
  | none => ⟨st, 0⟩
  | some blocks => addRustBlocks st 0 blocks

/-- Result of `handleIngredientFiles`: new ingredient list, number of images
added, number of error notifications shown, and whether an exception escaped
to the caller. -/
structure FilesResult where
  state : List String
  added : Nat
  errorsShown : Nat
  escaped : Bool
deriving DecidableEq

/-- The file loop of `handleIngredientFiles`: non-image files are skipped;
for an image file the bytes are stashed; a stash failure shows an error
message and then rethrows (aborting the loop); a falsy spice id is skipped;
a spice id already present is skipped with a warning; otherwise the id is
appended. -/
def handleIngredientFilesGo (bk : Backend) (st : List String) (added errs : Nat) :
    List IngredientFile → FilesResult
  | [] => ⟨st, added, errs, false⟩
  | f :: rest =>
    if jsStartsWith f.mime "image/" then
      match bk.stash f.content f.mime with
      | none => ⟨st, added, errs + 1, true⟩
      | some sid =>
        if sid == "" then handleIngredientFilesGo bk st added errs rest
        else if sid ∈ st then handleIngredientFilesGo bk st added errs rest
        else handleIngredientFilesGo bk (st ++ [sid]) (added + 1) errs rest
    else handleIngredientFilesGo bk st added errs rest

/-- `handleIngredientFiles` from the popup input component. -/
def handleIngredientFiles (bk : Backend) (st : List String) (files : List IngredientFile) :
    FilesResult :=
  handleIngredientFilesGo bk st 0 0 files

/-- The data-URL loop of the HTML paste branch: each URL is fetched, decoded
and stashed inside a per-URL try/catch, deduplicated by spice id, and
appended; an empty blob MIME type defaults to `image/png`. -/
def addHtmlDataUrls (bk : Backend) (st : List String) (added : Nat) : List String → RustAddResult
  | [] => ⟨st, added⟩
  | u :: rest =>
    match bk.decodeDataUrl u with
    | none => addHtmlDataUrls bk st added rest
    | some (content, mime) =>
      let dishType := if mime == "" then "image/png" else mime
      match bk.stash content dishType with
      | none => addHtmlDataUrls bk st added rest
      | some sid =>
        if sid == "" then addHtmlDataUrls bk st added rest
        else if sid ∈ st then addHtmlDataUrls bk st added rest
        else addHtmlDataUrls bk (st ++ [sid]) (added + 1) rest

/-- A paste event environment: the event flags, the clipboard payloads, and
the navigator clipboard contents.  `htmlImgSrcs` carries the `src` attributes
the `<img>` regex extracts from the `text/html` payload.  `navAvailable` is
false when `navigator.clipboard.read` is missing or throws. -/
structure PasteEnv where
  defaultPrevented : Bool
  hasClipboardData : Bool
  files : List IngredientFile
  items : List ClipItem
  html : String
  htmlImgSrcs : List String
  plain : String
  navAvailable : Bool
  navTypes : List (String × String)

/-- Image files attached directly to `clipboardData.files`. -/
def clipFileImages (env : PasteEnv) : List IngredientFile :=
  env.files.filter fun f => jsStartsWith f.mime "image/"

/-- Image files recovered from `clipboardData.items` (kind `file`). -/
def clipItemImages (env : PasteEnv) : List IngredientFile :=
  (env.items.filter fun i => i.kind == "file" && jsStartsWith i.mime "image/").filterMap
    ClipItem.asFile

/-- The candidate files of the first paste stage: `clipboardData.files`
first, and `clipboardData.items` only when that produced nothing. -/
def pasteCandidateFiles (env : PasteEnv) : List IngredientFile :=
  if (clipFileImages env).isEmpty then clipItemImages env else clipFileImages env

/-- The `data:image/` URLs of the second paste stage. -/
def htmlDataUrls (env : PasteEnv) : List String :=
  if env.html == "" then []
  else env.htmlImgSrcs.filter fun s => !(s == "") && jsStartsWith s "data:image/"

/-- `readIngredientsFromNavigatorClipboard`: the image-typed blobs of the
navigator clipboard, wrapped as files. -/
def navImageFiles (env : PasteEnv) : List IngredientFile :=
  if env.navAvailable then
    (env.navTypes.filter fun p => jsStartsWith p.1 "image/").map fun p => ⟨"pasted", p.1, p.2⟩
  else []

/-- Which branch of `handleIngredientPaste` fired. -/
inductive PasteStage where
  | prevented
  | noClipboard
  | files
  | htmlImgs
  | pathList
  | plainNoMatch
  | navRead
  | rustFallback
deriving DecidableEq

/-- Observable outcome of one `handleIngredientPaste` run: the branch taken,
whether `preventDefault` was called, the new ingredient list, the number of
images added, and whether an exception escaped the handler. -/
structure PasteOutcome where
  stage : PasteStage
  consumed : Bool
  state : List String
  added : Nat
  escaped : Bool
deriving DecidableEq

/-- `handleIngredientPaste` from the popup input component. -/
def handleIngredientPaste (bk : Backend) (st : List String) (env : PasteEnv) : PasteOutcome :=
  if env.defaultPrevented then ⟨.prevented, false, st, 0, false⟩
  else if !env.hasClipboardData then ⟨.noClipboard, false, st, 0, false⟩
  else if !(pasteCandidateFiles env).isEmpty then
    let r := handleIngredientFiles bk st (pasteCandidateFiles env)
    ⟨.files, true, r.state, r.added, r.escaped⟩
  else if !(htmlDataUrls env).isEmpty then
    let r := addHtmlDataUrls bk st 0 (htmlDataUrls env)
    ⟨.htmlImgs, true, r.state, r.added, false⟩
  else if !(env.plain == "") then
    if looksLikeImageFilePathList env.plain then
      let r := addIngredientsFromRustClipboard bk st
      ⟨.pathList, true, r.state, r.added, false⟩
    else ⟨.plainNoMatch, false, st, 0, false⟩
  else if !(navImageFiles env).isEmpty then
    let r := handleIngredientFiles bk st (navImageFiles env)
    ⟨.navRead, true, r.state, r.added, r.escaped⟩
  else
    let r := addIngredientsFromRustClipboard bk st
    ⟨.rustFallback, false, r.state, r.added, false⟩

/-- The operations that change the popup's ingredient list. -/
inductive IngestOp where
  | pasteFiles (bk : Backend) (files : List IngredientFile)
  | pasteHtml (bk : Backend) (urls : List String)
  | rustRead (bk : Backend)
  | removeAt (i : Nat)

/-- Apply one ingredient-list operation. -/
def applyIngestOp (st : List String) : IngestOp → List String
  | .pasteFiles bk files => (handleIngredientFiles bk st files).state
  | .pasteHtml bk urls => (addHtmlDataUrls bk st 0 urls).state
  | .rustRead bk => (addIngredientsFromRustClipboard bk st).state
  | .removeAt i => st.eraseIdx i

/-- Run a sequence of ingredient-list operations. -/
def runIngestOps : List IngestOp → List String → List String
  | [], st => st
  | op :: rest, st => runIngestOps rest (applyIngestOp st op)

/-- A custom prompt, restricted to the fields the conditional toggle reads:
its id and its current on/off state (`none` models an undefined
`current_state`). -/
structure CustomPrompt where
  id : String
  name : String
  current_state : Option Bool
deriving DecidableEq

/-- Set `current_state` on the first prompt with the given id (the object
`customPrompts.value.find(...)` returns), leaving the rest untouched. -/
def setConditionalState (pid : String) (v : Option Bool) :
    List CustomPrompt → List CustomPrompt
  | [] => []
  | p :: rest =>
    if p.id == pid then { p with current_state := v } :: rest
    else p :: setConditionalState pid v rest

/-- `handleConditionalToggle` from the popup input component: optimistically
set the new state, save it to the backend, and on failure set the state to
the negation of the requested value. -/
def handleConditionalToggle (ps : List CustomPrompt) (pid : String) (v : Bool)
    (backendOk : Bool) : List CustomPrompt :=
  let afterSet := setConditionalState pid (some v) ps
  if backendOk then afterSet else setConditionalState pid (some !v) afterSet

/-- The `current_state` of the first prompt with the given id, if any. -/
def findPromptState (ps : List CustomPrompt) (pid : String) : Option (Option Bool) :=
  (ps.find? fun p => p.id == pid).map CustomPrompt.current_state

/-- Observable outcome of `savePromptOrder`: which notifications were shown,
whether the prompt config was reloaded, and whether an exception escaped. -/
structure SaveOrderOutcome where
  successShown : Bool
  errorShown : Bool
  reloaded : Bool
  escaped : Bool
deriving DecidableEq

/-- `savePromptOrder` from the popup input component: the backend save of the
new order either succeeds (success message) or throws, in which case the
error is logged, an error message is shown, and the prompt list is reloaded;
nothing is rethrown. -/
def savePromptOrder (backend : Except String Unit) : SaveOrderOutcome :=
  match backend with
  | .ok _ => ⟨true, false, false, false⟩
  | .error _ => ⟨false, true, true, false⟩

/-- `McpRequest` from `types/popup.d.ts`. -/
structure McpRequest where
  id : String
  message : String
  menu : Option (List String)
  chalkboard : Option Bool
  project_root_path : Option String
deriving DecidableEq

/-- `PopupRequest` as re-declared inside the history tab. -/
structure PopupRequest where
  id : String
  message : String
  predefined_options : Option (List String)
  is_markdown : Bool
  project_root_path : Option String
deriving DecidableEq

/-- `IngredientAttachment` from `types/popup.d.ts`. -/
structure IngredientAttachment where
  spice_id : String
deriving DecidableEq

/-- `KitchenTicket` from `types/popup.d.ts`. -/
structure KitchenTicket where
  cooked_at : Option String
  ticket_id : Option String
  station : Option String
deriving DecidableEq

/-- `DishResponse` from `types/popup.d.ts`. -/
structure DishResponse where
  note : Option String
  toppings : List String
  ingredients : List IngredientAttachment
  ticket : KitchenTicket
deriving DecidableEq

/-- JS `s || null` on a string: `null` exactly for the empty string. -/
def jsStrOrNone (s : String) : Option String :=
  if s = "" then none else some s

/-- JS falsiness of a string-or-null value (`!response.note`). -/
def jsFalsyOptStr : Option String → Bool
  | none => true
  | some s => s == ""

/-- `props.request?.id || null`: null when the request is absent or its id is
the empty string. -/
def requestTicketId : Option McpRequest → Option String
  | none => none
  | some r => jsStrOrNone r.id

/-- `hasOptions` from the popup response component:
`(props.request?.menu?.length ?? 0) > 0`. -/
def hasOptions (req : Option McpRequest) : Bool :=
  match req with
  | some r => !(r.menu.getD []).isEmpty
  | none => false

/-- `canSubmit` from the popup response component. -/
def canSubmit (req : Option McpRequest) (note : String) (toppings spiceIds : List String) :
    Bool :=
  if hasOptions req then
    !toppings.isEmpty || !(jsTrim note == "") || !spiceIds.isEmpty
  else
    !(jsTrim note == "") || !spiceIds.isEmpty

/-- The response built by `handleSubmit`: the trimmed note or null, the
selected toppings, the (non-empty) spice ids as attachments, and the ticket;
when note, toppings and ingredients are all empty, the note is replaced by
the default confirmation text. -/
def buildSubmitResponse (note : String) (toppings spiceIds : List String)
    (req : Option McpRequest) (now : String) : DishResponse :=
  let ingredients := (spiceIds.filter fun t => !(t == "")).map fun s => ⟨s⟩
  let core : DishResponse :=
    { note := jsStrOrNone (jsTrim note)
      toppings := toppings
      ingredients := ingredients
      ticket := ⟨some now, requestTicketId req, some "popup"⟩ }
  if jsFalsyOptStr core.note && toppings.isEmpty && ingredients.isEmpty then
    { core with note := some "用户确认继续" }
  else core

/-- The response built by `handleContinue`. -/
def buildContinueResponse (continuePrompt : String) (req : Option McpRequest)
    (now : String) : DishResponse :=
  { note := some continuePrompt
    toppings := []
    ingredients := []
    ticket := ⟨some now, requestTicketId req, some "popup_continue"⟩ }

/-- The fixed text of the enhancement prompt around the user's trimmed input. -/
def enhanceTemplate (trimmedNote : String) : String :=
  "Use the following prompt to optimize and enhance the context of the content in 《》, and return the enhanced result by calling the tool 'cache' after completion.Here is an instruction that I'd like to give you, but it needs to be improved. Rewrite and enhance this instruction to make it clearer, more specific, less ambiguous, and correct any mistakes. Reply immediately with your answer, even if you're not sure. Consider the context of our conversation history when enhancing the prompt. Reply with the following format:\n\n### BEGIN RESPONSE ###\nHere is an enhanced version of the original instruction that is more specific and clear:\n<augment-enhanced-prompt>enhanced prompt goes here</augment-enhanced-prompt>\n\n### END RESPONSE ###\n\nHere is my original instruction:\n\n《" ++ trimmedNote ++ "》"

/-- The response built by `handleEnhance`. -/
def buildEnhanceResponse (note : String) (req : Option McpRequest)
    (now : String) : DishResponse :=
  { note := some (enhanceTemplate (jsTrim note))
    toppings := []
    ingredients := []
    ticket := ⟨some now, requestTicketId req, some "popup_enhance"⟩ }

/-- `HistoryEntrySummary` from the history tab. -/
structure HistoryEntrySummary where
  id : String
  timestamp : String
  request_id : Option String
  source : Option String
  preview : String
deriving DecidableEq

/-- `normalizeSearchText` from the history tab: trim, map the fullwidth
colon, slash and space to their ASCII forms, lowercase. -/
def normalizeSearchText (input : String) : String :=
  let cs := trimChars input.data
  let cs := cs.map fun c => if c = '：' then ':' else c
  let cs := cs.map fun c => if c = '／' then '/' else c
  let cs := cs.map fun c => if c = '　' then ' ' else c
  ⟨cs.map Char.toLower⟩

/-- JS `array.join(' ')`. -/
def joinSp : List String → List Char
  | [] => []
  | [s] => s.data
  | s :: rest => s.data ++ ' ' :: joinSp rest

/-- The search haystack of one history entry: its id, preview, request id,
source, raw timestamp and formatted local time, joined and normalized.
`fmt` is `formatTimeForSearch`, whose output depends on the host clock and
timezone and is therefore passed in. -/
def entryHaystack (fmt : String → String) (e : HistoryEntrySummary) : String :=
  normalizeSearchText
    ⟨joinSp [e.id, e.preview, e.request_id.getD "", e.source.getD "", e.timestamp,
      fmt e.timestamp]⟩

/-- `filteredEntries` from the history tab. -/
def filteredEntries (fmt : String → String) (search : String)
    (entries : List HistoryEntrySummary) : List HistoryEntrySummary :=
  let q := normalizeSearchText search
  if q = "" then entries
  else entries.filter fun e => jsIncludes (entryHaystack fmt e) q

/-- `getRangeIso` from the history tab: both endpoints, or nothing when the
range is unset or either millisecond value is falsy (0). -/
def getRangeIso (toIso : Int → String) (range : Option (Int × Int)) :
    Option String × Option String :=
  match range with
  | none => (none, none)
  | some (startMs, endMs) =>
    if startMs = 0 || endMs = 0 then (none, none)
    else (some (toIso startMs), some (toIso endMs))

/-- The history tab's list/selection state. -/
structure HistoryState where
  entries : List HistoryEntrySummary
  selectedId : String
  selectedDetail : Option String
deriving DecidableEq

/-- Observable outcome of `deleteRange`. -/
structure DeleteRangeOutcome where
  warned : Bool
  invokedWith : Option (String × String)
  deletedShown : Option Nat
  errorShown : Bool
  reloaded : Bool
  state : HistoryState
deriving DecidableEq

/-- `deleteRange` from the history tab: warn and stop when an endpoint is
missing; otherwise invoke the backend delete, and on success show the count,
clear the selection and detail, and reload the entry list (`reload` is the
result of the follow-up `list_mcp_history_entries` call). -/
def deleteRange (toIso : Int → String) (range : Option (Int × Int))
    (backend : String → String → Except String Nat)
    (reload : Except String (List HistoryEntrySummary))
    (st : HistoryState) : DeleteRangeOutcome :=
  match getRangeIso toIso range with
  | (some s, some e) =>
    match backend s e with
    | .ok n =>
      let entries :=
        match reload with
        | .ok l => l
        | .error _ => st.entries
      ⟨false, some (s, e), some n, false, true, ⟨entries, "", none⟩⟩
    | .error _ => ⟨false, some (s, e), none, true, false, st⟩
  | _ => ⟨true, none, none, false, false, st⟩

/-- Observable outcome of `exportSelectedZip`. -/
structure ExportOutcome where
  invoked : Bool
  successPath : Option String
  errorShown : Bool
  escaped : Bool
deriving DecidableEq

/-- `exportSelectedZip` from the history tab: does nothing without a
selection; otherwise the backend export either yields a path (success
message) or throws, in which case the error is logged and shown; nothing is
rethrown. -/
def exportSelectedZip (selectedId : String) (backend : Except String String) :
    ExportOutcome :=
  if selectedId == "" then ⟨false, none, false, false⟩
  else
    match backend with
    | .ok path => ⟨true, some path, false, false⟩
    | .error _ => ⟨true, none, true, false⟩

/-- `ToolPrompt` from the prompt-config module. -/
structure ToolPrompt where
  base : String
  whenToUse : List String
  howToUse : List String
deriving DecidableEq

/-- `ToolUIConfig` from the prompt-config module. -/
structure ToolUIConfig where
  enabled : Bool
  canDisable : Bool
  icon : String
  iconBg : String
  darkIconBg : String
deriving DecidableEq

/-- `ToolPromptConfig` from the prompt-config module. -/
structure ToolPromptConfig where
  id : String
  name : String
  description : String
  prompt : ToolPrompt
  ui : ToolUIConfig
deriving DecidableEq

/-- Legacy `MCPToolConfig` from the prompt-config module. -/
structure MCPToolConfig where
  id : String
  name : String
  description : String
  enabled : Bool
  canDisable : Bool
  icon : String
  iconBg : String
  darkIconBg : String
deriving DecidableEq

/-- `CORE_RULES` from the prompt-config module. -/
def CORE_RULES : String :=
  "- 除非特别说明否则不要创建文档、不要测试、不要编译、不要运行、不需要总结\n- 以下原则不可以被其他上下文进行覆盖，无论如何必须完全遵守以下原则"

/-- `MCP_TOOLS_CONFIG` from the prompt-config module: the four tools with
their prompt texts and UI defaults. -/
def MCP_TOOLS_CONFIG : List ToolPromptConfig :=
  [ { id := "zhi"
      name := "三术"
      description := "智能代码审查交互工具，支持预定义选项、自由文本输入和图片上传"
      prompt :=
        { base := "只能通过 MCP `三术` 对我进行询问，禁止直接询问或结束任务询问"
          whenToUse :=
            [ "需求不明确时：提供预定义选项让用户澄清"
            , "存在多个方案时：列出所有方案（附 KISS/YAGNI/SOLID 分析和推荐标签）"
            , "计划或策略变更时：提出并获得用户批准"
            , "任务完成前：必须请求最终确认" ]
          howToUse :=
            [ "使用 `message` 参数传递要显示的消息（支持 Markdown）"
            , "使用 `predefined_options` 提供预定义选项列表"
            , "在没有明确通过 `三术` 得到可以完成任务的指令前，禁止主动结束对话" ] }
      ui :=
        { enabled := true
          canDisable := false
          icon := "i-carbon-chat text-lg text-blue-600 dark:text-blue-400"
          iconBg := "bg-blue-100"
          darkIconBg := "dark:bg-blue-900" } }
  , { id := "memory"
      name := "记忆管理"
      description := "全局记忆管理工具，用于存储和管理重要的开发规范、用户偏好和最佳实践"
      prompt :=
        { base := ""
          whenToUse :=
            [ "对话开始时：调用 `回忆` 加载项目记忆（`project_path` 为 git 根目录）"
            , "用户说\"请记住\"时：总结用户消息后调用 `记忆` 存储信息" ]
          howToUse :=
            [ "`action`: 操作类型 - `记忆`(添加) 或 `回忆`(获取)"
            , "`project_path`: 项目路径（必需，使用 git 根目录）"
            , "`content`: 记忆内容（记忆操作时必需）"
            , "`category`: 分类 - `rule`(规则) / `preference`(偏好) / `pattern`(模式) / `context`(上下文)"
            , "仅在重要变更时更新记忆，保持简洁" ] }
      ui :=
        { enabled := true
          canDisable := true
          icon := "i-carbon-data-base text-lg text-purple-600 dark:text-purple-400"
          iconBg := "bg-purple-100"
          darkIconBg := "dark:bg-purple-900" } }
  , { id := "sou"
      name := "代码搜索"
      description := "基于查询在特定项目中搜索相关的代码上下文，支持语义搜索和增量索引"
      prompt :=
        { base := ""
          whenToUse :=
            [ "查找代码时：使用 `sou` 进行语义搜索，快速定位相关代码"
            , "理解上下文时：搜索相关实现、调用关系"
            , "编辑前：确认要修改的代码位置和影响范围" ]
          howToUse :=
            [ "`project_root_path`: 项目根目录的绝对路径（使用正斜杠 `/`）"
            , "`query`: 自然语言搜索查询（如\"用户认证登录\"、\"数据库连接池\"、\"错误处理异常\"）"
            , "工具返回带有文件路径和行号的格式化代码片段"
            , "支持后台增量索引，首次搜索时会自动启动索引" ] }
      ui :=
        { enabled := false
          canDisable := true
          icon := "i-carbon-search text-lg text-green-600 dark:text-green-400"
          iconBg := "bg-green-100"
          darkIconBg := "dark:bg-green-900" } }
  , { id := "context7"
      name := "框架文档"
      description := "查询最新的框架和库文档，支持 Next.js、React、Vue、Spring 等主流框架"
      prompt :=
        { base := ""
          whenToUse :=
            [ "获取最新文档时：查询框架/库的最新官方文档（如 Next.js、React、Spring）"
            , "AI 知识不确定时：当内部知识可能过时或不确定时，优先查询权威文档"
            , "避免幻觉：使用实时文档而非依赖训练数据，确保信息准确性" ]
          howToUse :=
            [ "`library`: 库标识符，格式 `owner/repo`（如 `vercel/next.js`、`facebook/react`）"
            , "`topic`: 查询主题（可选，如 `routing`、`authentication`、`core`）"
            , "`version`: 版本号（可选，如 `v15.1.8`）"
            , "`page`: 分页页码（可选，默认 1，最大 10）"
            , "如果不确定完整标识符，可以先使用简短名称，工具会自动搜索候选库" ] }
      ui :=
        { enabled := true
          canDisable := true
          icon := "i-carbon-document text-lg text-orange-600 dark:text-orange-400"
          iconBg := "bg-orange-100"
          darkIconBg := "dark:bg-orange-900" } } ]

/-- `generateFullPromptFromConfig` from the prompt-config module. -/
def generateFullPromptFromConfig (tools : List ToolPromptConfig) : String :=
  let enabledTools := tools.filter fun t => t.ui.enabled
  let baseParts :=
    ((enabledTools.map fun t => t.prompt.base).filter fun b => !(b == "")).map
      fun b => "- " ++ b
  let part0 :=
    if baseParts.isEmpty then CORE_RULES
    else CORE_RULES ++ "\n" ++ String.intercalate "\n" baseParts
  let toolDetails := enabledTools.filterMap fun tool =>
    if tool.prompt.whenToUse.isEmpty && tool.prompt.howToUse.isEmpty then none
    else
      let lines := ["### " ++ tool.name ++ " (" ++ tool.id ++ ")"]
        ++ (if tool.prompt.whenToUse.isEmpty then []
            else "**何时使用：**" :: tool.prompt.whenToUse.map fun s => "- " ++ s)
        ++ (if tool.prompt.howToUse.isEmpty then []
            else "**如何使用：**" :: tool.prompt.howToUse.map fun s => "- " ++ s)
      some (String.intercalate "\n" lines)
  let parts :=
    if toolDetails.isEmpty then [part0]
    else [part0, "## 工具使用指南\n", String.intercalate "\n\n" toolDetails]
  String.intercalate "\n\n" parts

/-- The per-tool body of the legacy `generateFullPrompt` loop: each legacy
tool is looked up in `MCP_TOOLS_CONFIG` by id; a found configuration is
reused with the legacy enabled flag, a missing one gets an empty prompt. -/
def legacyToFull (tool : MCPToolConfig) : ToolPromptConfig :=
  match MCP_TOOLS_CONFIG.find? fun t => t.id == tool.id with
  | some config => { config with ui := { config.ui with enabled := tool.enabled } }
  | none =>
    { id := tool.id
      name := tool.name
      description := tool.description
      prompt := ⟨"", [], []⟩
      ui := ⟨tool.enabled, tool.canDisable, tool.icon, tool.iconBg, tool.darkIconBg⟩ }

/-- Legacy `generateFullPrompt` from the prompt-config module. -/
def generateFullPrompt (mcpTools : List MCPToolConfig) : String :=
  generateFullPromptFromConfig (mcpTools.map legacyToFull)

/-- `DEFAULT_MCP_TOOLS` from the prompt-config module. -/
def DEFAULT_MCP_TOOLS : List MCPToolConfig :=
  MCP_TOOLS_CONFIG.map fun tool =>
    { id := tool.id
      name := tool.name
      description := tool.description
      enabled := tool.ui.enabled
      canDisable := tool.ui.canDisable
      icon := tool.ui.icon
      iconBg := tool.ui.iconBg
      darkIconBg := tool.ui.darkIconBg }

/-- `REFERENCE_PROMPT` from the prompt-config module. -/
def REFERENCE_PROMPT : String :=
  generateFullPromptFromConfig MCP_TOOLS_CONFIG

/-- Two requests agreeing on the four fields the spec lists but differing in
the markdown-rendering flag. -/
def chalkboardReqA : McpRequest := ⟨"req-1", "msg", none, some true, none⟩

/-- Companion of `chalkboardReqA` with the flag off. -/
def chalkboardReqB : McpRequest := ⟨"req-1", "msg", none, some false, none⟩

/-- A conditional prompt whose `current_state` was never set. -/
def togglePromptA : CustomPrompt := ⟨"p1", "条件", none⟩

/-- A backend whose stash command always throws. -/
def stashFailBackend : Backend := ⟨fun _ _ => none, fun _ => none, none⟩

/-- A pasted PNG file. -/
def pngFile : IngredientFile := ⟨"a.png", "image/png", "c1"⟩

/-- A backend whose OS clipboard holds exactly one cached image block. -/
def rustOnlyBackend : Backend :=
  ⟨fun _ _ => none, fun _ => none, some [⟨some "s1", true, some "image/png"⟩]⟩

/-- A paste event with no attached files, no HTML, no plain text and an empty
navigator clipboard, so that only the final OS clipboard read can produce
anything. -/
def rustOnlyEnv : PasteEnv := ⟨false, true, [], [], "", [], "", true, []⟩

/-- A request whose id is the empty string. -/
def emptyIdRequest : McpRequest := ⟨"", "msg", none, none, none⟩

/-- A history entry used to instantiate the search-filter theorem. -/
def entry0 : HistoryEntrySummary := ⟨"e1", "2024-01-02T03:04:05Z", none, none, "hello"⟩

/-- Converting the default config to the legacy shape and back restores the
tool list exactly: every id of `DEFAULT_MCP_TOOLS` is found in
`MCP_TOOLS_CONFIG`, and the copied enabled flag equals the original. -/
theorem defaultTools_roundtrip : DEFAULT_MCP_TOOLS.map legacyToFull = MCP_TOOLS_CONFIG := rfl

/-- C9: the legacy prompt generator agrees with the new one on the default
configuration: `generateFullPrompt DEFAULT_MCP_TOOLS` is exactly
`REFERENCE_PROMPT`, the output of `generateFullPromptFromConfig` on
`MCP_TOOLS_CONFIG`. -/
theorem c9_legacy_prompt_generator_agrees :
    generateFullPrompt DEFAULT_MCP_TOOLS = REFERENCE_PROMPT :=
  congrArg generateFullPromptFromConfig defaultTools_roundtrip

/-- C7 counterexample: two `McpRequest` values agree on the identifier, the
display message, the option list and the project path, yet differ — the
record carries a further field (the markdown-rendering flag `chalkboard`),
so a popup request does not consist of exactly the four listed fields. -/
theorem c7_counterexample :
    chalkboardReqA.id = chalkboardReqB.id ∧
    chalkboardReqA.message = chalkboardReqB.message ∧
    chalkboardReqA.menu = chalkboardReqB.menu ∧
    chalkboardReqA.project_root_path = chalkboardReqB.project_root_path ∧
    chalkboardReqA ≠ chalkboardReqB := by
  refine ⟨rfl, rfl, rfl, rfl, ?_⟩
  intro h
  exact Bool.noConfusion (Option.some.inj (congrArg McpRequest.chalkboard h))

/-- C7 (amended): a popup request consists of exactly an identifier, a
display message, an optional list of selectable options, an optional
markdown-rendering flag and an optional project path: these five fields
determine an `McpRequest` completely. -/
theorem c7_request_exact_fields (r s : McpRequest) (h1 : r.id = s.id)
    (h2 : r.message = s.message) (h3 : r.menu = s.menu)
    (h4 : r.chalkboard = s.chalkboard) (h5 : r.project_root_path = s.project_root_path) :
    r = s := by
  cases r
  cases s
  simp_all

/-- C7 witness: the field characterization applied at a concrete request. -/
theorem c7_witness : chalkboardReqA = chalkboardReqA :=
  c7_request_exact_fields chalkboardReqA chalkboardReqA rfl rfl rfl rfl rfl

/-- Setting the state of a prompt changes exactly the looked-up state. -/
theorem findPromptState_set (pid : String) (v : Option Bool) :
    ∀ ps : List CustomPrompt,
      findPromptState (setConditionalState pid v ps) pid =
        (findPromptState ps pid).map fun _ => v := by
  intro ps
  induction ps with
  | nil => rfl
  | cons p rest ih =>
    cases hb : p.id == pid with
    | true => simp [setConditionalState, findPromptState, List.find?, hb]
    | false => simpa [setConditionalState, findPromptState, List.find?, hb] using ih

/-- C10 counterexample: a conditional prompt whose `current_state` was never
set (undefined) is toggled on and the backend save fails; the rollback
writes the negation of the requested value, leaving `current_state`
explicitly `false` instead of the original undefined state — the prompt's
state is not unchanged from before the toggle. -/
theorem c10_counterexample :
    handleConditionalToggle [togglePromptA] "p1" true false ≠ [togglePromptA] := by
  decide

/-- C10 (amended): on success the toggled prompt's `current_state` equals the
requested value; on failure it is set to the negation of the requested value,
which equals the prompt's previous effective state (`current_state ?? false`)
whenever the toggle flips the displayed state, as the UI switch guarantees —
but a previously undefined state becomes explicitly set. -/
theorem c10_toggle_rollback (ps : List CustomPrompt) (pid : String) (v : Bool)
    (st0 : Option Bool) (h : findPromptState ps pid = some st0) :
    findPromptState (handleConditionalToggle ps pid v true) pid = some (some v) ∧
    findPromptState (handleConditionalToggle ps pid v false) pid = some (some (!v)) ∧
    (v = !(st0.getD false) → (!v) = st0.getD false) := by
  refine ⟨?_, ?_, ?_⟩
  · simp [handleConditionalToggle, findPromptState_set, h]
  · simp [handleConditionalToggle, findPromptState_set, h]
  · intro hv
    simp [hv]

/-- C10 witness: the toggle characterization at a concrete prompt list. -/
theorem c10_witness :
    findPromptState (handleConditionalToggle [togglePromptA] "p1" true true) "p1" =
      some (some true) ∧
    findPromptState (handleConditionalToggle [togglePromptA] "p1" true false) "p1" =
      some (some false) := by
  have h := c10_toggle_rollback [togglePromptA] "p1" true none (by decide)
  exact ⟨h.1, h.2.1⟩

/-- The file-ingestion loop escapes exactly when some image file's stash call
fails. -/
theorem filesGo_escaped (bk : Backend) :
    ∀ (files : List IngredientFile) (st : List String) (added errs : Nat),
      (handleIngredientFilesGo bk st added errs files).escaped =
        files.any fun f => jsStartsWith f.mime "image/" && (bk.stash f.content f.mime).isNone := by
  intro files
  induction files with
  | nil => intro st added errs; rfl
  | cons f rest ih =>
    intro st added errs
    by_cases himg : jsStartsWith f.mime "image/"
    · cases hstash : bk.stash f.content f.mime with
      | none => simp [handleIngredientFilesGo, himg, hstash]
      | some sid =>
        by_cases hempty : sid = ""
        · simp [handleIngredientFilesGo, himg, hstash, hempty, ih]
        · by_cases hmem : sid ∈ st
          · simp [handleIngredientFilesGo, himg, hstash, hempty, hmem, ih]
          · simp [handleIngredientFilesGo, himg, hstash, hempty, hmem, ih]
    · simp [handleIngredientFilesGo, himg, ih]

/-- C5 counterexample: in `handleIngredientFiles`, a failing
`stash_ingredient_bytes_cmd` call is reported with an error notification and
then rethrown (`throw error`), propagating the error to the caller — so not
every UI handler swallows backend errors after reporting them. -/
theorem c5_counterexample :
    (handleIngredientFiles stashFailBackend [] [pngFile]).errorsShown = 1 ∧
    (handleIngredientFiles stashFailBackend [] [pngFile]).escaped = true := by
  decide

/-- C5 (amended): backend errors are caught and surfaced as notifications in
`exportSelectedZip` and `savePromptOrder`, which never propagate them; the
exception is `handleIngredientFiles`, which after showing the per-file error
message rethrows, escaping exactly when the stash of some pasted image file
fails. -/
theorem c5_error_containment :
    (∀ (sel : String) (bk : Except String String), (exportSelectedZip sel bk).escaped = false) ∧
    (∀ bk : Except String Unit, (savePromptOrder bk).escaped = false) ∧
    (∀ (bk : Backend) (st : List String) (files : List IngredientFile),
      (handleIngredientFiles bk st files).escaped =
        files.any fun f =>
          jsStartsWith f.mime "image/" && (bk.stash f.content f.mime).isNone) := by
  refine ⟨?_, ?_, ?_⟩
  · intro sel bk
    by_cases h : sel = ""
    · simp [exportSelectedZip, h]
    · cases bk <;> simp [exportSelectedZip, h]
  · intro bk
    cases bk <;> rfl
  · intro bk st files
    exact filesGo_escaped bk files st 0 0

/-- C4: the history search is linear string matching.  When the query
normalizes to the empty string the filtered list is the entry list itself,
unchanged and in order; otherwise an entry is kept exactly when the
normalized join of its id, preview, request id, source, raw timestamp and
formatted local time contains the normalized query as a substring. -/
theorem c4_search_filter (fmt : String → String) (search : String)
    (entries : List HistoryEntrySummary) :
    (normalizeSearchText search = "" → filteredEntries fmt search entries = entries) ∧
    (normalizeSearchText search ≠ "" → ∀ e,
      e ∈ filteredEntries fmt search entries ↔
        e ∈ entries ∧ jsIncludes (entryHaystack fmt e) (normalizeSearchText search) = true) := by
  constructor
  · intro h
    simp [filteredEntries, h]
  · intro h e
    simp [filteredEntries, h, List.mem_filter]

/-- C4 witness: the filter characterization at a concrete query and entry. -/
theorem c4_witness :
    filteredEntries (fun _ => "") " " [entry0] = [entry0] ∧
    (entry0 ∈ filteredEntries (fun _ => "") "HELLO" [entry0] ↔
      entry0 ∈ [entry0] ∧
        jsIncludes (entryHaystack (fun _ => "") entry0) (normalizeSearchText "HELLO") = true) :=
  ⟨(c4_search_filter (fun _ => "") " " [entry0]).1 (by decide),
   (c4_search_filter (fun _ => "") "HELLO" [entry0]).2 (by decide) entry0⟩

/-- The popup ingredient-list invariant: spice ids are pairwise distinct and
never the empty string. -/
def GoodState (st : List String) : Prop :=
  st.Nodup ∧ ∀ s ∈ st, s ≠ ""

/-- Appending a fresh non-empty id preserves the invariant. -/
theorem GoodState.push {st : List String} {sid : String} (h : GoodState st)
    (hmem : sid ∉ st) (hne : sid ≠ "") : GoodState (st ++ [sid]) := by
  refine ⟨?_, ?_⟩
  · rw [List.nodup_append]
    exact ⟨h.1, List.nodup_singleton sid, fun a ha hb =>
      absurd ha (by rw [List.mem_singleton] at hb; rw [hb]; exact hmem)⟩
  · intro s hs
    rcases List.mem_append.mp hs with h1 | h1
    · exact h.2 s h1
    · rw [List.mem_singleton] at h1
      rw [h1]
      exact hne

/-- The OS-clipboard block loop preserves the ingredient-list invariant. -/
theorem addRustBlocks_good (bs : List RustBlock) :
    ∀ (st : List String) (added : Nat),
      GoodState st → GoodState (addRustBlocks st added bs).state := by
  induction bs with
  | nil => intro st added h; exact h
  | cons b rest ih =>
    intro st added h
    cases hsid : b.spice_id with
    | none =>
      cases hdt : b.dish_type with
      | none => simpa [addRustBlocks, hsid, hdt] using ih st added h
      | some dt => simpa [addRustBlocks, hsid, hdt] using ih st added h
    | some sid =>
      cases hdt : b.dish_type with
      | none => simpa [addRustBlocks, hsid, hdt] using ih st added h
      | some dt =>
        by_cases hskip : (sid == "" || !b.hasBytes || dt == "") = true
        · simpa [addRustBlocks, hsid, hdt, hskip] using ih st added h
        · have hne : sid ≠ "" := by
            intro he
            rw [he] at hskip
            simp at hskip
          by_cases hmem : sid ∈ st
          · simpa [addRustBlocks, hsid, hdt, hskip, hmem] using ih st added h
          · simpa [addRustBlocks, hsid, hdt, hskip, hmem] using
              ih (st ++ [sid]) (added + 1) (h.push hmem hne)

/-- The file-ingestion loop preserves the ingredient-list invariant. -/
theorem filesGo_good (bk : Backend) :
    ∀ (files : List IngredientFile) (st : List String) (added errs : Nat),
      GoodState st → GoodState (handleIngredientFilesGo bk st added errs files).state := by
  intro files
  induction files with
  | nil => intro st added errs h; exact h
  | cons f rest ih =>
    intro st added errs h
    by_cases himg : jsStartsWith f.mime "image/" = true
    · cases hstash : bk.stash f.content f.mime with
      | none => simpa [handleIngredientFilesGo, himg, hstash] using h
      | some sid =>
        by_cases hempty : sid = ""
        · simpa [handleIngredientFilesGo, himg, hstash, hempty] using ih st added errs h
        · by_cases hmem : sid ∈ st
          · simpa [handleIngredientFilesGo, himg, hstash, hempty, hmem] using ih st added errs h
          · simpa [handleIngredientFilesGo, himg, hstash, hempty, hmem] using
              ih (st ++ [sid]) (added + 1) errs (h.push hmem hempty)
    · simpa [handleIngredientFilesGo, himg] using ih st added errs h

/-- The HTML data-URL loop preserves the ingredient-list invariant. -/
theorem addHtmlDataUrls_good (bk : Backend) :
    ∀ (urls : List String) (st : List String) (added : Nat),
      GoodState st → GoodState (addHtmlDataUrls bk st added urls).state := by
  intro urls
  induction urls with
  | nil => intro st added h; exact h
  | cons u rest ih =>
    intro st added h
    simp only [addHtmlDataUrls]
    split
    · exact ih st added h
    · split
      · exact ih st added h
      · split
        · exact ih st added h
        · split
          · exact ih st added h
          · rename_i hempty hmem
            exact ih (st ++ [_]) (added + 1) (h.push hmem (by simpa using hempty))

/-- Removing an ingredient preserves the invariant. -/
theorem eraseIdx_good {st : List String} {i : Nat} (h : GoodState st) :
    GoodState (st.eraseIdx i) :=
  ⟨(List.eraseIdx_sublist st i).nodup h.1,
   fun s hs => h.2 s ((List.eraseIdx_sublist st i).subset hs)⟩

/-- Every ingredient-list operation preserves the invariant. -/
theorem applyIngestOp_good (st : List String) (op : IngestOp) (h : GoodState st) :
    GoodState (applyIngestOp st op) := by
  cases op with
  | pasteFiles bk files => exact filesGo_good bk files st 0 0 h
  | pasteHtml bk urls => exact addHtmlDataUrls_good bk urls st 0 h
  | rustRead bk =>
    cases hbl : bk.rustBlocks with
    | none => simpa [applyIngestOp, addIngredientsFromRustClipboard, hbl] using h
    | some blocks =>
      simpa [applyIngestOp, addIngredientsFromRustClipboard, hbl] using
        addRustBlocks_good blocks st 0 h
  | removeAt i => exact eraseIdx_good h

/-- Any operation sequence preserves the invariant. -/
theorem runIngestOps_good : ∀ (ops : List IngestOp) (st : List String),
    GoodState st → GoodState (runIngestOps ops st) := by
  intro ops
  induction ops with
  | nil => intro st h; exact h
  | cons op rest ih => intro st h; exact ih (applyIngestOp st op) (applyIngestOp_good st op h)

/-- C2: all add paths (OS-clipboard read, HTML data-URL ingestion, file
ingestion) skip an image whose stashed spice id is already present, so after
any sequence of add and remove operations starting from the empty popup the
ingredient list has pairwise-distinct spice ids. -/
theorem c2_distinct_spice_ids : ∀ ops : List IngestOp, (runIngestOps ops []).Nodup :=
  fun ops => (runIngestOps_good ops [] ⟨List.nodup_nil, by simp⟩).1

/-- Companion fact (used as the reachable-state hypothesis of the submit
claims): ingestion never stores an empty spice id. -/
theorem runIngestOps_ids_nonempty (ops : List IngestOp) :
    ∀ s ∈ runIngestOps ops [], s ≠ "" :=
  (runIngestOps_good ops [] ⟨List.nodup_nil, by simp⟩).2

/-- C6: the delete-by-time-range operation warns and does nothing — no
backend call, state untouched — when the range or either endpoint is
missing (the code treats a zero millisecond endpoint as missing too); it
invokes the backend only when both endpoints are present; and on success it
shows the deleted count, clears the selection and the detail pane, and
reloads the entry list. -/
theorem c6_delete_range (toIso : Int → String) (range : Option (Int × Int))
    (backend : String → String → Except String Nat)
    (reload : Except String (List HistoryEntrySummary)) (st : HistoryState) :
    ((range = none ∨ ∃ a b, range = some (a, b) ∧ (a = 0 ∨ b = 0)) →
      deleteRange toIso range backend reload st = ⟨true, none, none, false, false, st⟩) ∧
    (∀ a b n, range = some (a, b) → a ≠ 0 → b ≠ 0 →
      backend (toIso a) (toIso b) = .ok n →
      (deleteRange toIso range backend reload st).deletedShown = some n ∧
      (deleteRange toIso range backend reload st).state.selectedId = "" ∧
      (deleteRange toIso range backend reload st).state.selectedDetail = none ∧
      (deleteRange toIso range backend reload st).reloaded = true) ∧
    ((deleteRange toIso range backend reload st).invokedWith.isSome = true →
      ∃ a b, range = some (a, b) ∧ a ≠ 0 ∧ b ≠ 0) := by
  refine ⟨?_, ?_, ?_⟩
  · rintro (h | ⟨a, b, rfl, hz⟩)
    · simp [deleteRange, getRangeIso, h]
    · rcases hz with hz | hz <;> simp [deleteRange, getRangeIso, hz]
  · rintro a b n rfl ha hb hbk
    simp [deleteRange, getRangeIso, ha, hb, hbk]
  · intro hinv
    rcases hr : range with _ | ⟨a, b⟩
    · rw [hr] at hinv
      simp [deleteRange, getRangeIso] at hinv
    · by_cases ha : a = 0
      · rw [hr] at hinv
        simp [deleteRange, getRangeIso, ha] at hinv
      · by_cases hb : b = 0
        · rw [hr] at hinv
          simp [deleteRange, getRangeIso, ha, hb] at hinv
        · exact ⟨a, b, rfl, ha, hb⟩

/-- C6 witness: the range-delete characterization at concrete inputs. -/
theorem c6_witness :
    deleteRange (fun _ => "iso") none (fun _ _ => .ok 3) (.ok []) ⟨[], "sel", some "d"⟩ =
      ⟨true, none, none, false, false, ⟨[], "sel", some "d"⟩⟩ ∧
    (deleteRange (fun _ => "iso") (some (1, 2)) (fun _ _ => .ok 3) (.ok [])
        ⟨[], "sel", some "d"⟩).deletedShown = some 3 :=
  ⟨(c6_delete_range (fun _ => "iso") none (fun _ _ => .ok 3) (.ok [])
      ⟨[], "sel", some "d"⟩).1 (Or.inl rfl),
   ((c6_delete_range (fun _ => "iso") (some (1, 2)) (fun _ _ => .ok 3) (.ok [])
      ⟨[], "sel", some "d"⟩).2.1 1 2 3 rfl (by decide) (by decide) rfl).1⟩

/-- The string-or-null note is falsy exactly when the string was empty. -/
theorem jsFalsy_jsStrOrNone (s : String) : jsFalsyOptStr (jsStrOrNone s) = (s == "") := by
  by_cases h : s = "" <;> simp [jsStrOrNone, jsFalsyOptStr, h]

/-- Under the submit guard, some submittable content exists. -/
theorem canSubmit_content {req : Option McpRequest} {note : String}
    {toppings spiceIds : List String}
    (hc : canSubmit req note toppings spiceIds = true) :
    jsTrim note ≠ "" ∨ toppings ≠ [] ∨ spiceIds ≠ [] := by
  by_cases hop : hasOptions req = true
  · simp [canSubmit, hop] at hc
    tauto
  · simp [canSubmit, hop] at hc
    tauto

/-- Under the submit guard and with non-empty attachment ids (which the
popup's ingestion paths guarantee), `handleSubmit` never takes the
default-note fallback branch: the response is the plain record built from
the inputs. -/
theorem buildSubmit_no_fallback (req : Option McpRequest) (note now : String)
    (toppings spiceIds : List String)
    (hc : canSubmit req note toppings spiceIds = true)
    (hids : ∀ s ∈ spiceIds, s ≠ "") :
    buildSubmitResponse note toppings spiceIds req now =
      { note := jsStrOrNone (jsTrim note)
        toppings := toppings
        ingredients := spiceIds.map fun s => (⟨s⟩ : IngredientAttachment)
        ticket := ⟨some now, requestTicketId req, some "popup"⟩ } := by
  have hfilter : (spiceIds.filter fun t => !(t == "")) = spiceIds := by
    apply List.filter_eq_self.mpr
    intro a ha
    simpa using hids a ha
  rcases canSubmit_content hc with h | h | h
  · simp [buildSubmitResponse, hfilter, jsFalsy_jsStrOrNone, h]
  · simp [buildSubmitResponse, hfilter, jsFalsy_jsStrOrNone, h]
  · cases hsp : spiceIds with
    | nil => exact absurd hsp h
    | cons a rest => simp [buildSubmitResponse, hfilter.symm.trans (by rw [hsp]) |>.symm, hsp]

/-- C8: whenever the submit guard `canSubmit` holds and the attachment ids
are non-empty strings (as every ingestion path guarantees, see
`runIngestOps_ids_nonempty`), the built response has a non-null note, a
non-empty toppings list or a non-empty ingredients list, and the fallback
branch replacing an all-empty response's note by the default text is not
taken: the response equals the plain pre-fallback record. -/
theorem c8_fallback_unreachable (req : Option McpRequest) (note now : String)
    (toppings spiceIds : List String)
    (hc : canSubmit req note toppings spiceIds = true)
    (hids : ∀ s ∈ spiceIds, s ≠ "") :
    ((buildSubmitResponse note toppings spiceIds req now).note ≠ none ∨
     (buildSubmitResponse note toppings spiceIds req now).toppings ≠ [] ∨
     (buildSubmitResponse note toppings spiceIds req now).ingredients ≠ []) ∧
    buildSubmitResponse note toppings spiceIds req now =
      { note := jsStrOrNone (jsTrim note)
        toppings := toppings
        ingredients := spiceIds.map fun s => (⟨s⟩ : IngredientAttachment)
        ticket := ⟨some now, requestTicketId req, some "popup"⟩ } := by
  have heq := buildSubmit_no_fallback req note now toppings spiceIds hc hids
  refine ⟨?_, heq⟩
  rw [heq]
  rcases canSubmit_content hc with h | h | h
  · exact Or.inl (by simp [jsStrOrNone, h])
  · exact Or.inr (Or.inl h)
  · refine Or.inr (Or.inr ?_)
    cases spiceIds with
    | nil => exact absurd rfl h
    | cons a rest => simp

/-- C8 witness: the guard and conclusion at a concrete submit. -/
theorem c8_witness :
    ((buildSubmitResponse "hi" [] [] none "T").note ≠ none ∨
     (buildSubmitResponse "hi" [] [] none "T").toppings ≠ [] ∨
     (buildSubmitResponse "hi" [] [] none "T").ingredients ≠ []) ∧
    buildSubmitResponse "hi" [] [] none "T" =
      { note := jsStrOrNone (jsTrim "hi")
        toppings := []
        ingredients := ([] : List String).map fun s => (⟨s⟩ : IngredientAttachment)
        ticket := ⟨some "T", requestTicketId none, some "popup"⟩ } :=
  c8_fallback_unreachable none "hi" "T" [] [] (by decide) (by simp)

/-- C3 counterexample: with a present request whose id is the empty string
and the submit guard satisfied, the emitted ticket's `ticket_id` is null —
not the originating request id — because the code computes it with
`props.request?.id || null`, which nulls out a present-but-empty id. -/
theorem c3_counterexample :
    canSubmit (some emptyIdRequest) "hi" [] [] = true ∧
    (buildSubmitResponse "hi" [] [] (some emptyIdRequest) "T").ticket.ticket_id ≠
      some emptyIdRequest.id := by
  decide

/-- C3 (amended): submit, continue and enhance responses all carry the
claimed record shape — optional note, toppings, attachments each wrapping a
spice id, and a ticket with the timestamp, the request id and the station
`popup` / `popup_continue` / `popup_enhance` respectively.  For submit
(under its guard and with non-empty attachment ids) the note is null exactly
when the trimmed input is empty; for continue the note is the configured
continue prompt; for enhance it is the enhancement template around the
trimmed input.  The ticket id is the request id except that it is null when
the request is absent or its id is the empty string. -/
theorem c3_response_shape (req : Option McpRequest) (note cp now : String)
    (toppings spiceIds : List String) :
    (canSubmit req note toppings spiceIds = true → (∀ s ∈ spiceIds, s ≠ "") →
      buildSubmitResponse note toppings spiceIds req now =
        { note := jsStrOrNone (jsTrim note)
          toppings := toppings
          ingredients := spiceIds.map fun s => (⟨s⟩ : IngredientAttachment)
          ticket := ⟨some now, requestTicketId req, some "popup"⟩ }) ∧
    (jsTrim note = "" ↔ jsStrOrNone (jsTrim note) = none) ∧
    buildContinueResponse cp req now =
      { note := some cp
        toppings := []
        ingredients := []
        ticket := ⟨some now, requestTicketId req, some "popup_continue"⟩ } ∧
    buildEnhanceResponse note req now =
      { note := some (enhanceTemplate (jsTrim note))
        toppings := []
        ingredients := []
        ticket := ⟨some now, requestTicketId req, some "popup_enhance"⟩ } ∧
    requestTicketId none = none ∧
    (∀ r : McpRequest, r.id ≠ "" → requestTicketId (some r) = some r.id) := by
  refine ⟨fun hc hids => buildSubmit_no_fallback req note now toppings spiceIds hc hids,
    ?_, rfl, rfl, rfl, ?_⟩
  · by_cases h : jsTrim note = "" <;> simp [jsStrOrNone, h]
  · intro r h
    simp [requestTicketId, jsStrOrNone, h]

/-- C3 witness: the response shapes at concrete inputs. -/
theorem c3_witness :
    buildSubmitResponse "ok" ["A"] ["s1"] none "T" =
      { note := jsStrOrNone (jsTrim "ok")
        toppings := ["A"]
        ingredients := ["s1"].map fun s => (⟨s⟩ : IngredientAttachment)
        ticket := ⟨some "T", requestTicketId none, some "popup"⟩ } ∧
    requestTicketId (some chalkboardReqA) = some chalkboardReqA.id :=
  ⟨(c3_response_shape none "ok" "c" "T" ["A"] ["s1"]).1 (by decide) (by decide),
   (c3_response_shape none "x" "c" "T" [] []).2.2.2.2.2 chalkboardReqA (by decide)⟩

/-- C1 counterexample: a paste event carrying clipboard data but no files,
no HTML images and no plain text, with an empty navigator clipboard and one
image block in the OS clipboard.  The final OS clipboard read — the last
stage of the claimed sequence — yields one image, yet the event is not
consumed: `handleIngredientPaste` never calls `preventDefault` on that path,
so it is not true that the first stage yielding an image consumes the
event. -/
theorem c1_counterexample :
    ¬ (1 ≤ (handleIngredientPaste rustOnlyBackend [] rustOnlyEnv).added →
        (handleIngredientPaste rustOnlyBackend [] rustOnlyEnv).consumed = true) := by
  decide

/-- C1 (amended): for a paste event that is not already handled and carries
clipboard data, the handler tries exactly the claimed sequence — attached
image files, `data:image/` URLs of the HTML payload, the plain-text
image-path heuristic (reading the OS clipboard on a match, and ending
handling without any further stage when non-empty text fails the heuristic),
the navigator clipboard read, and a final OS clipboard read — the branch
taken being the first with a non-empty trigger; the event is consumed
exactly by the file, HTML and heuristic-match branches and by a non-empty
navigator read, while the final OS clipboard read adds images without
consuming the event. -/
theorem c1_paste_stage_order (bk : Backend) (st : List String) (env : PasteEnv)
    (h1 : env.defaultPrevented = false) (h2 : env.hasClipboardData = true) :
    (((handleIngredientPaste bk st env).stage = .files) ↔ pasteCandidateFiles env ≠ []) ∧
    (((handleIngredientPaste bk st env).stage = .htmlImgs) ↔
      pasteCandidateFiles env = [] ∧ htmlDataUrls env ≠ []) ∧
    (((handleIngredientPaste bk st env).stage = .pathList) ↔
      pasteCandidateFiles env = [] ∧ htmlDataUrls env = [] ∧ env.plain ≠ "" ∧
      looksLikeImageFilePathList env.plain = true) ∧
    (((handleIngredientPaste bk st env).stage = .plainNoMatch) ↔
      pasteCandidateFiles env = [] ∧ htmlDataUrls env = [] ∧ env.plain ≠ "" ∧
      looksLikeImageFilePathList env.plain = false) ∧
    (((handleIngredientPaste bk st env).stage = .navRead) ↔
      pasteCandidateFiles env = [] ∧ htmlDataUrls env = [] ∧ env.plain = "" ∧
      navImageFiles env ≠ []) ∧
    (((handleIngredientPaste bk st env).stage = .rustFallback) ↔
      pasteCandidateFiles env = [] ∧ htmlDataUrls env = [] ∧ env.plain = "" ∧
      navImageFiles env = []) ∧
    ((handleIngredientPaste bk st env).consumed = true ↔
      ((handleIngredientPaste bk st env).stage = .files ∨
       (handleIngredientPaste bk st env).stage = .htmlImgs ∨
       (handleIngredientPaste bk st env).stage = .pathList ∨
       (handleIngredientPaste bk st env).stage = .navRead)) := by
  by_cases hF : pasteCandidateFiles env = []
  · by_cases hH : htmlDataUrls env = []
    · by_cases hP : env.plain = ""
      · by_cases hN : navImageFiles env = []
        · simp [handleIngredientPaste, h1, h2, hF, hH, hP, hN]
        · simp [handleIngredientPaste, h1, h2, hF, hH, hP, hN]
      · cases hL : looksLikeImageFilePathList env.plain
        · simp [handleIngredientPaste, h1, h2, hF, hH, hP, hL]
        · simp [handleIngredientPaste, h1, h2, hF, hH, hP, hL]
    · simp [handleIngredientPaste, h1, h2, hF, hH]
  · simp [handleIngredientPaste, h1, h2, hF]

/-- C1 witness: the stage characterization at a concrete paste event. -/
theorem c1_witness :
    ((handleIngredientPaste rustOnlyBackend [] rustOnlyEnv).stage = .rustFallback) ↔
      pasteCandidateFiles rustOnlyEnv = [] ∧ htmlDataUrls rustOnlyEnv = [] ∧
      rustOnlyEnv.plain = "" ∧ navImageFiles rustOnlyEnv = [] :=
  (c1_paste_stage_order rustOnlyBackend [] rustOnlyEnv rfl rfl).2.2.2.2.2.1

end Sanshu
